import Mathlib

/-!
Shallow embedding of the deadline-driven safety-session logic and the
place-helpfulness scoring of the Sakhi repository.

Times are modelled as integer epoch milliseconds, JS numbers used in
arithmetic comparisons as exact rationals or reals, and the Firestore
document store as association lists keyed by document id.  Each
definition is translated from the TypeScript source file named in its
doc comment.
-/

namespace Sakhi

/-! ## Model of src/src/lib/safetyCheck.ts -/

/-- The `status` union of the `SafetyCheck` interface:
`'active' | 'checked-in' | 'expired' | 'alerted'`. -/
inductive CheckStatus
  | active
  | checkedIn
  | expired
  | alerted
deriving DecidableEq, Repr

/-- One entry of the `contacts` array in `CreateSafetyCheckData` /
`CreateSOSData` / `CreateShareData`: `{id, name, phoneNumber}`. -/
structure Contact where
  id : String
  name : String
  phoneNumber : String
deriving DecidableEq, Repr

/-- The fields of the `SafetyCheck` Firestore document that the modelled
operations read or write (src/src/lib/safetyCheck.ts, `interface SafetyCheck`). -/
structure SafetyCheck where
  userId : String
  contactIds : List String
  contactNames : List String
  contactPhones : List String
  startTime : Int
  checkInDeadline : Int
  duration : Int
  isActive : Bool
  hasCheckedIn : Bool
  status : CheckStatus
  checkInTime : Option Int
deriving DecidableEq, Repr

/-- `CreateSafetyCheckData` (contacts plus duration in minutes). -/
structure CreateSafetyCheckData where
  contacts : List Contact
  duration : Int
deriving DecidableEq, Repr

/-- `createSafetyCheck` (src/src/lib/safetyCheck.ts:76-115): throws when no
user is signed in, otherwise builds the document with
`checkInDeadline = now + duration * 60000`, `isActive: true`,
`hasCheckedIn: false`, `status: 'active'`, `startTime: now`.
There is no validation of the contacts list. -/
def createSafetyCheck (checkData : CreateSafetyCheckData) (user : Option String)
    (now : Int) : Except String SafetyCheck :=
  match user with
  | none => .error "You must be logged in to create a safety check"
  | some uid =>
      .ok {
        userId := uid
        contactIds := checkData.contacts.map (fun c => c.id)
        contactNames := checkData.contacts.map (fun c => c.name)
        contactPhones := checkData.contacts.map (fun c => c.phoneNumber)
        startTime := now
        checkInDeadline := now + checkData.duration * 60000
        duration := checkData.duration
        isActive := true
        hasCheckedIn := false
        status := .active
        checkInTime := none }

/-- `checkIn` (src/src/lib/safetyCheck.ts:120-138): unconditionally sets
`isActive: false`, `hasCheckedIn: true`, `status: 'checked-in'`,
`checkInTime: new Date()`. -/
def checkIn (c : SafetyCheck) (now : Int) : SafetyCheck :=
  { c with isActive := false, hasCheckedIn := true, status := .checkedIn,
           checkInTime := some now }

/-- `cancelSafetyCheck` (src/src/lib/safetyCheck.ts:177-190):
unconditionally sets `isActive: false`, `status: 'checked-in'`; it never
inspects the current state. -/
def cancelSafetyCheck (c : SafetyCheck) : SafetyCheck :=
  { c with isActive := false, status := .checkedIn }

/-- `sendEmergencyAlert` (src/src/lib/safetyCheck.ts:195-211):
unconditionally sets `isActive: false`, `status: 'alerted'`. -/
def sendEmergencyAlert (c : SafetyCheck) : SafetyCheck :=
  { c with isActive := false, status := .alerted }

/-- Lookup of a safety-check document by id, modelling the
`where('__name__', '==', checkId)` query. -/
def findCheck (store : List (String × SafetyCheck)) (checkId : String) :
    Option SafetyCheck :=
  (store.find? (fun p => p.1 == checkId)).map (fun p => p.2)

/-- `extendDeadline` (src/src/lib/safetyCheck.ts:143-172): looks the check up
by id, fails with "Safety check not found" when absent, and otherwise writes
`checkInDeadline := current + additionalMinutes * 60000` and
`duration := current + additionalMinutes`.  It checks neither the check's
state nor the sign of `additionalMinutes`. -/
def extendDeadline (store : List (String × SafetyCheck)) (checkId : String)
    (additionalMinutes : Int) : Except String (List (String × SafetyCheck)) :=
  match findCheck store checkId with
  | none => .error "Safety check not found"
  | some c =>
      .ok (store.map (fun p =>
        if p.1 == checkId then
          (p.1, { c with
            checkInDeadline := c.checkInDeadline + additionalMinutes * 60000,
            duration := c.duration + additionalMinutes })
        else p))

/-- The loop body of `checkAndExpireSafetyChecks`
(src/src/lib/safetyCheck.ts:219-235): a check with
`checkInDeadline <= now && isActive && !hasCheckedIn` is written to
`isActive: false`, `status: 'alerted'`; any other check is untouched. -/
def expireCheck (now : Int) (c : SafetyCheck) : SafetyCheck :=
  if c.checkInDeadline ≤ now ∧ c.isActive ∧ ¬ c.hasCheckedIn then
    { c with isActive := false, status := .alerted }
  else c

/-- `checkAndExpireSafetyChecks` (src/src/lib/safetyCheck.ts:216-237):
apply `expireCheck` to every check of the batch. -/
def checkAndExpireSafetyChecks (checks : List SafetyCheck) (now : Int) :
    List SafetyCheck :=
  checks.map (expireCheck now)

/-! ## Model of src/src/lib/sos.ts -/

/-- The `status` union of the `SOSAlert` interface:
`'active' | 'resolved' | 'cancelled'`. -/
inductive SOSStatus
  | active
  | resolved
  | cancelled
deriving DecidableEq, Repr

/-- The `mode` union `'silent' | 'loud'`. -/
inductive SOSMode
  | silent
  | loud
deriving DecidableEq, Repr

/-- A `{latitude, longitude, accuracy, timestamp}` location record.
Coordinates are modelled as exact reals, since they feed the haversine
trigonometry of `calculateDistance`. -/
structure SOSLocation where
  latitude : ℝ
  longitude : ℝ
  accuracy : ℝ
  timestamp : Int

/-- The fields of the `SOSAlert` Firestore document that the modelled
operations read or write (src/src/lib/sos.ts, `interface SOSAlert`). -/
structure SOSAlert where
  userId : String
  userName : String
  contactIds : List String
  contactNames : List String
  contactPhones : List String
  triggeredAt : Int
  status : SOSStatus
  mode : SOSMode
  initialLocation : SOSLocation
  lastKnownLocation : Option SOSLocation
  batteryLevel : Option ℝ
  isRecording : Bool
  hasMovedSignificantly : Bool
  resolvedAt : Option Int

/-- `CreateSOSData` (contacts, mode, current location, battery). -/
structure CreateSOSData where
  contacts : List Contact
  mode : SOSMode
  currentLocation : SOSLocation
  batteryLevel : Option ℝ

/-- `triggerSOS` (src/src/lib/sos.ts:100-164): throws when no user is signed
in or when `contacts` is empty; otherwise creates the alert with
`status: 'active'`, `triggeredAt: now`, `hasMovedSignificantly: false`,
`initialLocation` and `lastKnownLocation` both the supplied location. -/
def triggerSOS (sosData : CreateSOSData) (user : Option String) (now : Int) :
    Except String SOSAlert :=
  match user with
  | none => .error "You must be logged in to trigger SOS"
  | some uid =>
      if sosData.contacts.isEmpty then
        .error "You must have at least one trusted contact to trigger SOS"
      else
        .ok {
          userId := uid
          userName := "User"
          contactIds := sosData.contacts.map (fun c => c.id)
          contactNames := sosData.contacts.map (fun c => c.name)
          contactPhones := sosData.contacts.map (fun c => c.phoneNumber)
          triggeredAt := now
          status := .active
          mode := sosData.mode
          initialLocation := sosData.currentLocation
          lastKnownLocation := some sosData.currentLocation
          batteryLevel := sosData.batteryLevel
          isRecording := true
          hasMovedSignificantly := false
          resolvedAt := none }

/-- `resolveSOSAlert` (src/src/lib/sos.ts:225-249): unconditionally writes
`status: 'resolved'`, `resolvedAt: new Date()`; no state check. -/
def resolveSOSAlert (a : SOSAlert) (now : Int) : SOSAlert :=
  { a with status := .resolved, resolvedAt := some now }

/-- `cancelSOSAlert` (src/src/lib/sos.ts:254-275): unconditionally writes
`status: 'cancelled'`, `resolvedAt: new Date()`; no state check. -/
def cancelSOSAlert (a : SOSAlert) (now : Int) : SOSAlert :=
  { a with status := .cancelled, resolvedAt := some now }

/-- The `Math.atan2` used by `calculateDistance`, written out over ℝ by the
usual quadrant cases. -/
noncomputable def atan2 (y x : ℝ) : ℝ :=
  if 0 < x then Real.arctan (y / x)
  else if x < 0 then
    (if 0 ≤ y then Real.arctan (y / x) + Real.pi
     else Real.arctan (y / x) - Real.pi)
  else if 0 < y then Real.pi / 2
  else if y < 0 then -(Real.pi / 2)
  else 0

/-- `calculateDistance` (src/src/lib/sos.ts:491-506): haversine great-circle
distance in kilometres, Earth radius 6371 km. -/
noncomputable def calculateDistance (lat1 lon1 lat2 lon2 : ℝ) : ℝ :=
  let R : ℝ := 6371
  let dLat := (lat2 - lat1) * Real.pi / 180
  let dLon := (lon2 - lon1) * Real.pi / 180
  let a := Real.sin (dLat / 2) * Real.sin (dLat / 2) +
    Real.cos (lat1 * Real.pi / 180) * Real.cos (lat2 * Real.pi / 180) *
    Real.sin (dLon / 2) * Real.sin (dLon / 2)
  let c := 2 * atan2 (Real.sqrt a) (Real.sqrt (1 - a))
  R * c

/-- One document of the `sosUpdates` collection (`interface SOSUpdate`). -/
structure SOSUpdateRec where
  alertId : String
  location : SOSLocation
  batteryLevel : Option ℝ
  timestamp : Int

/-- The SOS-related Firestore state: the `sosAlerts` collection keyed by
document id, and the `sosUpdates` collection. -/
structure SOSState where
  alerts : List (String × SOSAlert)
  updates : List SOSUpdateRec

/-- Lookup of an SOS alert by document id, modelling the
`where('__name__', '==', alertId)` query of `updateSOSLocation`. -/
def findAlert (s : SOSState) (alertId : String) : Option SOSAlert :=
  (s.alerts.find? (fun p => p.1 == alertId)).map (fun p => p.2)

/-- `updateSOSLocation` (src/src/lib/sos.ts:169-220): when the alert lookup
is empty nothing at all happens; otherwise the alert is rewritten with
`lastKnownLocation := location`, `batteryLevel`, and
`hasMovedSignificantly := distance > 0.5` where `distance` is the haversine
distance from `initialLocation` to the new location, and a record is
appended to `sosUpdates`. -/
noncomputable def updateSOSLocation (s : SOSState) (alertId : String)
    (location : SOSLocation) (batteryLevel : Option ℝ) (now : Int) : SOSState :=
  match findAlert s alertId with
  | none => s
  | some alertData =>
      let distance := calculateDistance alertData.initialLocation.latitude
        alertData.initialLocation.longitude location.latitude location.longitude
      let updated := { alertData with
        lastKnownLocation := some location
        batteryLevel := batteryLevel
        hasMovedSignificantly := decide (distance > 0.5) }
      { alerts := s.alerts.map (fun p =>
          if p.1 == alertId then (p.1, updated) else p)
        updates := s.updates ++
          [{ alertId := alertId, location := location,
             batteryLevel := batteryLevel, timestamp := now }] }

/-! ## Model of src/src/lib/location.ts -/

/-- The `shareType` union `'timed' | 'until-arrival' | 'indefinite'`. -/
inductive ShareType
  | timed
  | untilArrival
  | indefinite
deriving DecidableEq, Repr

/-- The fields of the `LocationShare` Firestore document that the modelled
operations read or write (src/src/lib/location.ts, `interface LocationShare`). -/
structure LocationShare where
  userId : String
  sharedWith : List String
  contactNames : List String
  contactPhones : List String
  startTime : Int
  endTime : Option Int
  duration : Option Int
  isActive : Bool
  shareType : ShareType
  checkInRequired : Bool
  checkInTime : Option Int
  lastUpdated : Int
deriving DecidableEq, Repr

/-- `CreateShareData` (recipients, optional duration in minutes, type). -/
structure CreateShareData where
  sharedWith : List Contact
  duration : Option Int
  shareType : ShareType
  checkInRequired : Bool
deriving DecidableEq, Repr

/-- `createLocationShare` (src/src/lib/location.ts:96-155): throws when no
user is signed in; otherwise creates the share with `isActive: true`,
`startTime: now` and, when a (truthy, i.e. non-zero) duration is given,
`endTime = now + duration * 60000`.  There is no validation of the
recipients list. -/
def createLocationShare (shareData : CreateShareData) (user : Option String)
    (now : Int) : Except String LocationShare :=
  match user with
  | none => .error "You must be signed in to share location"
  | some uid =>
      let endTime : Option Int :=
        match shareData.duration with
        | some d => if d = 0 then none else some (now + d * 60000)
        | none => none
      let storedDuration : Option Int :=
        match shareData.duration with
        | some d => if d = 0 then none else some d
        | none => none
      .ok {
        userId := uid
        sharedWith := shareData.sharedWith.map (fun c => c.id)
        contactNames := shareData.sharedWith.map (fun c => c.name)
        contactPhones := shareData.sharedWith.map (fun c => c.phoneNumber)
        startTime := now
        endTime := endTime
        duration := storedDuration
        isActive := true
        shareType := shareData.shareType
        checkInRequired := shareData.checkInRequired
        checkInTime := none
        lastUpdated := now }

/-- `stopLocationShare` (src/src/lib/location.ts:191-221): writes
`isActive: false`, `endTime: new Date()`, and `checkInTime` only when
`checkedIn` is true. -/
def stopLocationShare (share : LocationShare) (checkedIn : Bool) (now : Int) :
    LocationShare :=
  let base := { share with isActive := false, endTime := some now }
  if checkedIn then { base with checkInTime := some now } else base

/-- The loop body of `checkAndExpireShares`
(src/src/lib/location.ts:283-293): a share with an `endTime` that has
passed and `isActive` true is stopped via `stopLocationShare(share.id,
false)`; any other share is untouched. -/
def expireShare (now : Int) (s : LocationShare) : LocationShare :=
  match s.endTime with
  | some e => if e ≤ now ∧ s.isActive then stopLocationShare s false now else s
  | none => s

/-- `checkAndExpireShares` (src/src/lib/location.ts:280-294): apply
`expireShare` to every share of the batch. -/
def checkAndExpireShares (shares : List LocationShare) (now : Int) :
    List LocationShare :=
  shares.map (expireShare now)

/-! ## Model of the safe-places module (src/unnamed/part_004) -/

/-- One document of the `placeHelpfulness` collection
(`interface PlaceHelpfulness`). -/
structure PlaceFeedback where
  placeId : String
  userId : String
  isHelpful : Bool
  serviceTags : List String
  createdAt : Int
  updatedAt : Int
deriving DecidableEq, Repr

/-- The `confidenceLevel` union `'low' | 'medium' | 'high'`. -/
inductive ConfidenceLevel
  | low
  | medium
  | high
deriving DecidableEq, Repr

/-- The helpfulness-related fields of a `SafePlace` document.  All are
optional in the interface: a place created by `addSafePlace` carries none
of them. -/
structure PlaceDoc where
  helpfulCount : Option Nat
  notHelpfulCount : Option Nat
  totalFeedback : Option Nat
  helpfulnessScore : Option Int
  serviceTags : Option (List String)
  recentFeedbackCount : Option Nat
  confidenceLevel : Option ConfidenceLevel
  lastFeedbackUpdate : Option Int
  updatedAt : Int
deriving DecidableEq, Repr

/-- One step of the `allServiceTags.reduce` accumulation building the
`tagCounts` record: bump an existing key or append a new one. -/
def bumpTag (acc : List (String × Nat)) (tag : String) : List (String × Nat) :=
  if acc.any (fun p => p.1 == tag) then
    acc.map (fun p => if p.1 == tag then (p.1, p.2 + 1) else p)
  else acc ++ [(tag, 1)]

/-- The `tagCounts` map of `updatePlaceHelpfulness`, as an association list
in key-insertion order (the iteration order of `Object.entries`). -/
def tagCounts (tags : List String) : List (String × Nat) :=
  tags.foldl bumpTag []

/-- The `.sort(([_, a], [__, b]) => b - a)` comparator: descending count. -/
def descendingByCount (p q : String × Nat) : Prop := q.2 ≤ p.2

instance : DecidableRel descendingByCount := fun p q =>
  inferInstanceAs (Decidable (q.2 ≤ p.2))

instance : IsTotal (String × Nat) descendingByCount :=
  ⟨fun p q => le_total q.2 p.2⟩

instance : IsTrans (String × Nat) descendingByCount :=
  ⟨fun _ _ _ h h2 => le_trans h2 h⟩

/-- `30 * 24 * 60 * 60 * 1000` milliseconds. -/
def thirtyDaysMs : Int := 30 * 24 * 60 * 60 * 1000

/-- Membership in the `recentFeedback` partition: feedback whose age
`now - updatedAt` is at most 30 days. -/
def isRecent (now : Int) (f : PlaceFeedback) : Bool :=
  now - f.updatedAt ≤ thirtyDaysMs

/-- `overallHelpfulnessRate`: `helpfulCount / totalFeedback * 100`, `0` when
there is no feedback. -/
def overallHelpfulnessRate (feedback : List PlaceFeedback) : ℚ :=
  if feedback.length > 0 then
    ((feedback.filter (fun f => f.isHelpful)).length : ℚ) /
      (feedback.length : ℚ) * 100
  else 0

/-- `recentHelpfulnessRate`: the helpful percentage among recent feedback,
falling back to the overall rate when there is none. -/
def recentHelpfulnessRate (feedback : List PlaceFeedback) (now : Int) : ℚ :=
  let recent := feedback.filter (isRecent now)
  if recent.length > 0 then
    ((recent.filter (fun f => f.isHelpful)).length : ℚ) /
      (recent.length : ℚ) * 100
  else overallHelpfulnessRate feedback

/-- `unifiedScore = Math.round(overall * 0.7 + recent * 0.3)`. -/
def unifiedScore (feedback : List PlaceFeedback) (now : Int) : Int :=
  round (overallHelpfulnessRate feedback * 0.7 +
    recentHelpfulnessRate feedback now * 0.3)

/-- `minTagVotes = Math.max(1, Math.floor(totalFeedback * 0.2))`. -/
def minTagVotes (totalFeedback : Nat) : Nat :=
  max 1 (Int.toNat ⌊(totalFeedback : ℚ) * 0.2⌋)

/-- The concatenation of all `serviceTags` arrays, in document order
(`allServiceTags.push(...data.serviceTags)`). -/
def allServiceTags (feedback : List PlaceFeedback) : List String :=
  feedback.foldl (fun acc f => acc ++ f.serviceTags) []

/-- The entries of `tagCounts` surviving the `count >= minTagVotes` filter. -/
def supportedTagEntries (feedback : List PlaceFeedback) : List (String × Nat) :=
  (tagCounts (allServiceTags feedback)).filter
    (fun p => minTagVotes feedback.length ≤ p.2)

/-- `topServiceTags`: filter by minimum support, sort descending by count,
take the first 6, keep the tag names. -/
def topServiceTags (feedback : List PlaceFeedback) : List String :=
  (((supportedTagEntries feedback).insertionSort descendingByCount).take 6).map
    (fun p => p.1)

/-- `updatePlaceHelpfulness` (src/unnamed/part_004:531-668) as a pure
function from the place document and the full feedback set for the place.
When the feedback set is empty only `helpfulCount`, `totalFeedback`,
`serviceTags`, `helpfulnessScore`, `lastFeedbackUpdate` and `updatedAt` are
written; otherwise all derived metrics are recomputed. -/
def updatePlaceHelpfulness (place : PlaceDoc) (feedback : List PlaceFeedback)
    (now : Int) : PlaceDoc :=
  if feedback.isEmpty then
    { place with
      helpfulCount := some 0
      totalFeedback := some 0
      serviceTags := some []
      helpfulnessScore := some 0
      lastFeedbackUpdate := some now
      updatedAt := now }
  else
    let totalFeedback := feedback.length
    { helpfulCount := some (feedback.filter (fun f => f.isHelpful)).length
      notHelpfulCount := some (feedback.filter (fun f => !f.isHelpful)).length
      totalFeedback := some totalFeedback
      helpfulnessScore := some (unifiedScore feedback now)
      serviceTags := some (topServiceTags feedback)
      recentFeedbackCount := some (feedback.filter (isRecent now)).length
      confidenceLevel := some
        (if totalFeedback ≥ 10 then .high
         else if totalFeedback ≥ 5 then .medium
         else .low)
      lastFeedbackUpdate := some now
      updatedAt := now }

/-- Overwrite of the first feedback document matching `(placeId, userId)`
(the `docs[0]` that `submitPlaceHelpfulness` updates): `isHelpful`,
`serviceTags` and `updatedAt` are rewritten, `createdAt` is kept. -/
def overwriteFirstFeedback (store : List PlaceFeedback) (placeId userId : String)
    (isHelpful : Bool) (tags : List String) (now : Int) : List PlaceFeedback :=
  match store with
  | [] => []
  | f :: rest =>
      if f.placeId == placeId && f.userId == userId then
        { f with isHelpful := isHelpful, serviceTags := tags,
                 updatedAt := now } :: rest
      else
        f :: overwriteFirstFeedback rest placeId userId isHelpful tags now

/-- `submitPlaceHelpfulness` (src/unnamed/part_004:413-484), restricted to
its effect on the `placeHelpfulness` collection: if a feedback document for
`(placeId, userId)` already exists it is updated in place, otherwise a new
document is appended. -/
def submitPlaceHelpfulness (store : List PlaceFeedback) (placeId userId : String)
    (isHelpful : Bool) (serviceTags : Option (List String)) (now : Int) :
    List PlaceFeedback :=
  match store.find? (fun f => f.placeId == placeId && f.userId == userId) with
  | some _ =>
      overwriteFirstFeedback store placeId userId isHelpful
        (serviceTags.getD []) now
  | none =>
      store ++ [{ placeId := placeId, userId := userId, isHelpful := isHelpful,
                  serviceTags := serviceTags.getD [], createdAt := now,
                  updatedAt := now }]

/-- The feedback documents of one place, as queried by
`where('placeId', '==', placeId)`. -/
def feedbackForPlace (store : List PlaceFeedback) (placeId : String) :
    List PlaceFeedback :=
  store.filter (fun f => f.placeId == placeId)

/-! ## Concrete fixtures -/

/-- A fresh active safety check: 30 minutes, deadline at 1 800 000 ms. -/
def sampleCheck : SafetyCheck :=
  { userId := "u1"
    contactIds := ["c1"]
    contactNames := ["Ana"]
    contactPhones := ["100"]
    startTime := 0
    checkInDeadline := 1800000
    duration := 30
    isActive := true
    hasCheckedIn := false
    status := .active
    checkInTime := none }

/-- A safety check already in the terminal checked-in state. -/
def doneCheck : SafetyCheck :=
  { sampleCheck with
    isActive := false
    hasCheckedIn := true
    status := .checkedIn
    checkInTime := some 60000 }

/-- The origin location used by the SOS fixtures. -/
def sampleLoc : SOSLocation :=
  { latitude := 0
    longitude := 0
    accuracy := 10
    timestamp := 0 }

/-- A location on the opposite side of the globe from `sampleLoc`. -/
def farLoc : SOSLocation :=
  { latitude := 0
    longitude := 180
    accuracy := 10
    timestamp := 1 }

/-- A freshly triggered SOS alert located at `sampleLoc`. -/
def sampleAlert : SOSAlert :=
  { userId := "u1"
    userName := "User"
    contactIds := ["c1"]
    contactNames := ["Ana"]
    contactPhones := ["100"]
    triggeredAt := 0
    status := .active
    mode := .loud
    initialLocation := sampleLoc
    lastKnownLocation := some sampleLoc
    batteryLevel := none
    isRecording := true
    hasMovedSignificantly := false
    resolvedAt := none }

/-- A place document that already carries derived helpfulness metrics. -/
def richPlace : PlaceDoc :=
  { helpfulCount := some 4
    notHelpfulCount := some 3
    totalFeedback := some 7
    helpfulnessScore := some 57
    serviceTags := some ["well-lit"]
    recentFeedbackCount := some 2
    confidenceLevel := some .high
    lastFeedbackUpdate := some 0
    updatedAt := 0 }

/-- A place document as `addSafePlace` creates it: no helpfulness fields. -/
def freshPlace : PlaceDoc :=
  { helpfulCount := none
    notHelpfulCount := none
    totalFeedback := none
    helpfulnessScore := none
    serviceTags := none
    recentFeedbackCount := none
    confidenceLevel := none
    lastFeedbackUpdate := none
    updatedAt := 0 }

/-- Feedback for place `p` from user `u`, last updated at time 0. -/
def fb (u : String) (h : Bool) (tags : List String) : PlaceFeedback :=
  { placeId := "p"
    userId := u
    isHelpful := h
    serviceTags := tags
    createdAt := 0
    updatedAt := 0 }

/-- Ten helpful feedback records, all with `updatedAt = 0`; tag `t2` is
mentioned by exactly two of them and tag `t1` by exactly one. -/
def tenGood : List PlaceFeedback :=
  [fb "u1" true ["t2", "t1"], fb "u2" true ["t2"], fb "u3" true [],
   fb "u4" true [], fb "u5" true [], fb "u6" true [], fb "u7" true [],
   fb "u8" true [], fb "u9" true [], fb "u10" true []]

/-! ## Claim C1: are terminal states absorbing? -/

/-- C1 counterexample: `cancelSOSAlert` called after `resolveSOSAlert` has
set the terminal state `resolved` does not fail and does not leave the
state unchanged — it overwrites the status with `cancelled`. -/
theorem cancel_after_resolve_changes_state :
    (cancelSOSAlert (resolveSOSAlert sampleAlert 1) 2).status ≠
      (resolveSOSAlert sampleAlert 1).status := by
  simp [cancelSOSAlert, resolveSOSAlert]

/-- C1 amended: none of `resolveSOSAlert`, `cancelSOSAlert`,
`cancelSafetyCheck`, `sendEmergencyAlert` inspects the current state; each
write is applied unconditionally, so a terminal state is simply overwritten
by any later call.  In particular cancel after resolve yields `cancelled`. -/
theorem terminal_states_overwritten (a : SOSAlert) (c : SafetyCheck)
    (t1 t2 : Int) :
    (resolveSOSAlert a t1).status = .resolved ∧
    (cancelSOSAlert a t1).status = .cancelled ∧
    (cancelSOSAlert (resolveSOSAlert a t1) t2).status = .cancelled ∧
    (cancelSafetyCheck c).status = .checkedIn ∧
    (cancelSafetyCheck c).isActive = false ∧
    (sendEmergencyAlert c).status = .alerted :=
  ⟨rfl, rfl, rfl, rfl, rfl, rfl⟩

/-! ## Claim C3: extendDeadline validation -/

/-- C3 counterexample: extending a non-active (checked-in) safety check by
a negative duration raises neither `InvalidStateError` nor
`ValidationError`; the call succeeds and moves the deadline backwards. -/
theorem extendDeadline_unguarded :
    extendDeadline [("chk1", doneCheck)] "chk1" (-10) =
      .ok [("chk1", { doneCheck with
        checkInDeadline := 1200000
        duration := 20 })] ∧
    (1200000 : Int) < doneCheck.checkInDeadline := by
  exact ⟨rfl, by decide⟩

/-- C3 amended: `extendDeadline` fails only when the check id is not found;
for any found check — whatever its state — and any `additionalMinutes` of
any sign, it succeeds and writes
`checkInDeadline := old + additionalMinutes * 60000` and
`duration := old + additionalMinutes`. -/
theorem extendDeadline_spec (store : List (String × SafetyCheck))
    (checkId : String) (m : Int) :
    (∀ c, findCheck store checkId = some c →
      extendDeadline store checkId m =
        .ok (store.map (fun p =>
          if p.1 == checkId then
            (p.1, { c with
              checkInDeadline := c.checkInDeadline + m * 60000
              duration := c.duration + m })
          else p))) ∧
    (findCheck store checkId = none →
      extendDeadline store checkId m = .error "Safety check not found") := by
  constructor
  · intro c hc
    simp only [extendDeadline, hc]
  · intro hc
    simp only [extendDeadline, hc]

/-- Witness for `extendDeadline_spec` at a concrete store. -/
theorem extendDeadline_spec_witness :
    extendDeadline [("chk1", sampleCheck)] "chk1" 15 =
      .ok ([("chk1", sampleCheck)].map (fun p =>
        if p.1 == "chk1" then
          (p.1, { sampleCheck with
            checkInDeadline := sampleCheck.checkInDeadline + 15 * 60000
            duration := sampleCheck.duration + 15 })
        else p)) :=
  (extendDeadline_spec [("chk1", sampleCheck)] "chk1" 15).1 sampleCheck rfl

/-! ## Claim C5: the empty-feedback reset -/

/-- C5 counterexample: with an empty feedback set the aggregator does not
reset `notHelpfulCount` or `confidenceLevel` — those fields are simply not
written, so previous values survive. -/
theorem empty_reset_keeps_stale_fields :
    (updatePlaceHelpfulness richPlace [] 5).notHelpfulCount ≠ some 0 ∧
    (updatePlaceHelpfulness richPlace [] 5).confidenceLevel ≠ some .low := by
  decide

/-- C5 amended: with an empty feedback set `updatePlaceHelpfulness` writes
`helpfulCount = 0`, `totalFeedback = 0`, `serviceTags = []` and
`helpfulnessScore = 0` without computing any ratio, but it leaves
`notHelpfulCount`, `confidenceLevel` and `recentFeedbackCount` untouched. -/
theorem empty_reset_spec (place : PlaceDoc) (now : Int) :
    updatePlaceHelpfulness place [] now =
      { place with
        helpfulCount := some 0
        totalFeedback := some 0
        serviceTags := some []
        helpfulnessScore := some 0
        lastFeedbackUpdate := some now
        updatedAt := now } ∧
    (updatePlaceHelpfulness place [] now).notHelpfulCount =
      place.notHelpfulCount ∧
    (updatePlaceHelpfulness place [] now).confidenceLevel =
      place.confidenceLevel ∧
    (updatePlaceHelpfulness place [] now).recentFeedbackCount =
      place.recentFeedbackCount :=
  ⟨rfl, rfl, rfl, rfl⟩

/-! ## Claim C7: creation validation -/

/-- C7 counterexample: `createSafetyCheck` and `createLocationShare` accept
an empty recipients list — no `ValidationError` is raised and an Active
session is created. -/
theorem create_with_empty_recipients_succeeds :
    createSafetyCheck { contacts := [], duration := 30 } (some "u1") 0 =
      .ok { userId := "u1"
            contactIds := []
            contactNames := []
            contactPhones := []
            startTime := 0
            checkInDeadline := 1800000
            duration := 30
            isActive := true
            hasCheckedIn := false
            status := .active
            checkInTime := none } ∧
    createLocationShare
        { sharedWith := [], duration := some 30, shareType := .timed,
          checkInRequired := false } (some "u1") 0 =
      .ok { userId := "u1"
            sharedWith := []
            contactNames := []
            contactPhones := []
            startTime := 0
            endTime := some 1800000
            duration := some 30
            isActive := true
            shareType := .timed
            checkInRequired := false
            checkInTime := none
            lastUpdated := 0 } :=
  ⟨rfl, rfl⟩

/-- C7 amended: only `triggerSOS` rejects an empty recipients list; the
safety-check and location-share creators accept any contacts list.  Every
successfully created session starts Active with `startedAt = now`. -/
theorem creation_spec (sosData : CreateSOSData)
    (checkData : CreateSafetyCheckData) (shareData : CreateShareData)
    (uid : String) (now : Int) :
    (sosData.contacts = [] →
      triggerSOS sosData (some uid) now =
        .error "You must have at least one trusted contact to trigger SOS") ∧
    (sosData.contacts ≠ [] →
      ∃ a, triggerSOS sosData (some uid) now = .ok a ∧
        a.status = .active ∧ a.triggeredAt = now) ∧
    (∃ c, createSafetyCheck checkData (some uid) now = .ok c ∧
      c.status = .active ∧ c.isActive = true ∧ c.startTime = now) ∧
    (∃ s, createLocationShare shareData (some uid) now = .ok s ∧
      s.isActive = true ∧ s.startTime = now) := by
  refine ⟨?_, ?_, ⟨_, rfl, rfl, rfl, rfl⟩, ⟨_, rfl, rfl, rfl⟩⟩
  · intro h
    simp [triggerSOS, h]
  · intro h
    have h2 : sosData.contacts.isEmpty = false := by
      cases hc : sosData.contacts with
      | nil => exact absurd hc h
      | cons x xs => rfl
    refine ⟨{ userId := uid
              userName := "User"
              contactIds := sosData.contacts.map (fun c => c.id)
              contactNames := sosData.contacts.map (fun c => c.name)
              contactPhones := sosData.contacts.map (fun c => c.phoneNumber)
              triggeredAt := now
              status := .active
              mode := sosData.mode
              initialLocation := sosData.currentLocation
              lastKnownLocation := some sosData.currentLocation
              batteryLevel := sosData.batteryLevel
              isRecording := true
              hasMovedSignificantly := false
              resolvedAt := none }, ?_, rfl, rfl⟩
    simp [triggerSOS, h2]

/-- Witness for `creation_spec` at concrete inputs. -/
theorem creation_spec_witness :
    (triggerSOS
        { contacts := [], mode := .loud, currentLocation := sampleLoc,
          batteryLevel := none } (some "u1") 7 =
      .error "You must have at least one trusted contact to trigger SOS") ∧
    (∃ a, triggerSOS
        { contacts := [⟨"c1", "Ana", "100"⟩], mode := .loud,
          currentLocation := sampleLoc, batteryLevel := none }
        (some "u1") 7 =
      .ok a ∧ a.status = .active ∧ a.triggeredAt = 7) := by
  constructor
  · exact (creation_spec
      { contacts := [], mode := .loud, currentLocation := sampleLoc,
        batteryLevel := none }
      { contacts := [], duration := 30 }
      { sharedWith := [], duration := none, shareType := .indefinite,
        checkInRequired := false } "u1" 7).1 rfl
  · exact (creation_spec
      { contacts := [⟨"c1", "Ana", "100"⟩], mode := .loud,
        currentLocation := sampleLoc, batteryLevel := none }
      { contacts := [], duration := 30 }
      { sharedWith := [], duration := none, shareType := .indefinite,
        checkInRequired := false } "u1" 7).2.1 (by simp)

/-! ## Claim C8: the expiry scan is idempotent -/

/-- Applying the safety-check expiry step twice is the same as once: the
first application leaves `isActive = false`, so the second changes nothing. -/
theorem expireCheck_idem (now : Int) (c : SafetyCheck) :
    expireCheck now (expireCheck now c) = expireCheck now c := by
  unfold expireCheck
  by_cases h : c.checkInDeadline ≤ now ∧ c.isActive ∧ ¬ c.hasCheckedIn
  · rw [if_pos h, if_neg]
    intro h2
    exact Bool.noConfusion h2.2.1
  · rw [if_neg h, if_neg h]

/-- Applying the location-share expiry step twice is the same as once. -/
theorem expireShare_idem (now : Int) (s : LocationShare) :
    expireShare now (expireShare now s) = expireShare now s := by
  rcases he : s.endTime with _ | e
  · have h0 : expireShare now s = s := by
      unfold expireShare
      rw [he]
    rw [h0, h0]
  · by_cases h : e ≤ now ∧ s.isActive
    · have h1 : expireShare now s =
          { s with isActive := false, endTime := some now } := by
        unfold expireShare
        rw [he]
        dsimp only
        rw [if_pos h]
        rfl
      rw [h1]
      unfold expireShare
      dsimp only
      rw [if_neg]
      intro hx
      exact Bool.noConfusion hx.2
    · have h0 : expireShare now s = s := by
        unfold expireShare
        rw [he]
        dsimp only
        rw [if_neg h]
      rw [h0, h0]

/-- C8: scanning twice at the same instant is the same as scanning once,
for both the safety-check and the location-share scanners; and the
safety-check scan changes a session exactly when it is active, not yet
checked in, and its deadline has passed. -/
theorem scan_idempotent :
    (∀ (checks : List SafetyCheck) (now : Int),
      checkAndExpireSafetyChecks (checkAndExpireSafetyChecks checks now) now =
        checkAndExpireSafetyChecks checks now) ∧
    (∀ (shares : List LocationShare) (now : Int),
      checkAndExpireShares (checkAndExpireShares shares now) now =
        checkAndExpireShares shares now) ∧
    (∀ (c : SafetyCheck) (now : Int),
      checkAndExpireSafetyChecks [c] now ≠ [c] ↔
        (c.checkInDeadline ≤ now ∧ c.isActive ∧ ¬ c.hasCheckedIn)) := by
  refine ⟨?_, ?_, ?_⟩
  · intro checks now
    unfold checkAndExpireSafetyChecks
    rw [List.map_map]
    exact List.map_congr_left (fun c _ => expireCheck_idem now c)
  · intro shares now
    unfold checkAndExpireShares
    rw [List.map_map]
    exact List.map_congr_left (fun s _ => expireShare_idem now s)
  · intro c now
    have hm : checkAndExpireSafetyChecks [c] now = [expireCheck now c] := rfl
    rw [hm]
    constructor
    · intro hne
      by_contra hcond
      apply hne
      unfold expireCheck
      rw [if_neg hcond]
    · intro hcond heq
      have h1 : expireCheck now c = c := by
        simpa using heq
      have h2 : (expireCheck now c).isActive = false := by
        unfold expireCheck
        rw [if_pos hcond]
      rw [h1, hcond.2.1] at h2
      exact Bool.noConfusion h2

/-! ## Claim C10: location update for a missing alert -/

/-- C10: when the alert lookup comes back empty, `updateSOSLocation` leaves
the whole SOS state unchanged — no alert write, no update record, and no
error; a caller cannot distinguish this from a successful update. -/
theorem updateSOSLocation_missing_is_noop (s : SOSState) (alertId : String)
    (loc : SOSLocation) (b : Option ℝ) (now : Int)
    (h : findAlert s alertId = none) :
    updateSOSLocation s alertId loc b now = s := by
  unfold updateSOSLocation
  rw [h]

/-- Witness for `updateSOSLocation_missing_is_noop` on an empty store. -/
theorem updateSOSLocation_missing_is_noop_witness :
    updateSOSLocation ⟨[], []⟩ "a1" sampleLoc none 3 = ⟨[], []⟩ :=
  updateSOSLocation_missing_is_noop ⟨[], []⟩ "a1" sampleLoc none 3 rfl

/-! ## Claim C9: one feedback record per (placeId, userId) -/

/-- `overwriteFirstFeedback` does not change the number of records matching
the (placeId, userId) pair: the overwritten record still matches. -/
theorem overwriteFirst_filter_length (store : List PlaceFeedback)
    (p u : String) (h : Bool) (tags : List String) (now : Int) :
    ((overwriteFirstFeedback store p u h tags now).filter
      (fun f => f.placeId == p && f.userId == u)).length =
    (store.filter (fun f => f.placeId == p && f.userId == u)).length := by
  induction store with
  | nil => rfl
  | cons f rest ih =>
      unfold overwriteFirstFeedback
      by_cases hm : (f.placeId == p && f.userId == u) = true
      · rw [if_pos hm]
        rw [List.filter_cons, List.filter_cons]
        have hup : ((({ f with
            isHelpful := h
            serviceTags := tags
            updatedAt := now } : PlaceFeedback).placeId == p &&
            ({ f with
              isHelpful := h
              serviceTags := tags
              updatedAt := now } : PlaceFeedback).userId == u) : Bool)
            = true := hm
        rw [hup]
        simp
      · rw [if_neg hm]
        rw [List.filter_cons, List.filter_cons, if_neg hm, if_neg hm, ih]

/-- C9: a submission for a pair that already has a record overwrites it and
a submission for a new pair appends one record, so "at most one record per
(placeId, userId)" is preserved; and the end-to-end scenario — user A
submits `isHelpful = true` then `isHelpful = false` for the same place —
leaves one record and aggregates to `helpfulCount = 0`,
`notHelpfulCount = 1`, `totalFeedback = 1`. -/
theorem submit_overwrites_not_appends :
    (∀ (store : List PlaceFeedback) (p u : String) (h : Bool)
        (tags : Option (List String)) (now : Int),
      (store.filter (fun f => f.placeId == p && f.userId == u)).length ≤ 1 →
        ((submitPlaceHelpfulness store p u h tags now).filter
          (fun f => f.placeId == p && f.userId == u)).length ≤ 1) ∧
    (feedbackForPlace
        (submitPlaceHelpfulness
          (submitPlaceHelpfulness [] "p" "A" true none 1) "p" "A" false none 2)
        "p").length = 1 ∧
    (updatePlaceHelpfulness freshPlace
      (feedbackForPlace
        (submitPlaceHelpfulness
          (submitPlaceHelpfulness [] "p" "A" true none 1) "p" "A" false none 2)
        "p") 3).helpfulCount = some 0 ∧
    (updatePlaceHelpfulness freshPlace
      (feedbackForPlace
        (submitPlaceHelpfulness
          (submitPlaceHelpfulness [] "p" "A" true none 1) "p" "A" false none 2)
        "p") 3).notHelpfulCount = some 1 ∧
    (updatePlaceHelpfulness freshPlace
      (feedbackForPlace
        (submitPlaceHelpfulness
          (submitPlaceHelpfulness [] "p" "A" true none 1) "p" "A" false none 2)
        "p") 3).totalFeedback = some 1 := by
  refine ⟨?_, by decide, by decide, by decide, by decide⟩
  intro store p u h tags now hle
  unfold submitPlaceHelpfulness
  cases hfind : store.find? (fun f => f.placeId == p && f.userId == u) with
  | some g =>
      rw [overwriteFirst_filter_length]
      exact hle
  | none =>
      rw [List.filter_append]
      have hnil : store.filter (fun f => f.placeId == p && f.userId == u)
          = [] := by
        rw [List.filter_eq_nil_iff]
        exact fun a ha hpa => (List.find?_eq_none.1 hfind a ha) hpa
      rw [hnil]
      simp

/-- Witness for `submit_overwrites_not_appends` on a concrete store. -/
theorem submit_overwrites_witness :
    (((submitPlaceHelpfulness [fb "A" true []] "p" "A" false none 2).filter
      (fun f => f.placeId == "p" && f.userId == "A")).length ≤ 1) :=
  (submit_overwrites_not_appends).1 [fb "A" true []] "p" "A" false none 2
    (by decide)

/-! ## Claim C4: the unified helpfulness score -/

/-- A helpful-percentage `num / den * 100` with `num ≤ den` lies in
`[0, 100]`. -/
theorem pct_bounds (num den : Nat) (hle : num ≤ den) (hpos : 0 < den) :
    0 ≤ ((num : ℚ) / (den : ℚ)) * 100 ∧ ((num : ℚ) / (den : ℚ)) * 100 ≤ 100 := by
  have hq : (0 : ℚ) < (den : ℚ) := by exact_mod_cast hpos
  have hqle : ((num : ℚ)) ≤ ((den : ℚ)) := by exact_mod_cast hle
  constructor
  · positivity
  · rw [div_mul_eq_mul_div, div_le_iff₀ hq]
    nlinarith

/-- The overall helpfulness rate lies in `[0, 100]`. -/
theorem overallRate_bounds (feedback : List PlaceFeedback) :
    0 ≤ overallHelpfulnessRate feedback ∧
      overallHelpfulnessRate feedback ≤ 100 := by
  unfold overallHelpfulnessRate
  by_cases hpos : feedback.length > 0
  · rw [if_pos hpos]
    exact pct_bounds _ _ (List.length_filter_le _ _) hpos
  · rw [if_neg hpos]
    norm_num

/-- The recent helpfulness rate lies in `[0, 100]`. -/
theorem recentRate_bounds (feedback : List PlaceFeedback) (now : Int) :
    0 ≤ recentHelpfulnessRate feedback now ∧
      recentHelpfulnessRate feedback now ≤ 100 := by
  unfold recentHelpfulnessRate
  by_cases hpos : (feedback.filter (isRecent now)).length > 0
  · rw [if_pos hpos]
    exact pct_bounds _ _ (List.length_filter_le _ _) hpos
  · rw [if_neg hpos]
    exact overallRate_bounds feedback

/-- The rounded unified score is an integer in `[0, 100]`. -/
theorem unifiedScore_bounds (feedback : List PlaceFeedback) (now : Int) :
    0 ≤ unifiedScore feedback now ∧ unifiedScore feedback now ≤ 100 := by
  obtain ⟨ho1, ho2⟩ := overallRate_bounds feedback
  obtain ⟨hr1, hr2⟩ := recentRate_bounds feedback now
  unfold unifiedScore
  rw [round_eq]
  constructor
  · apply Int.le_floor.2
    push_cast
    nlinarith
  · have hlt : ⌊overallHelpfulnessRate feedback * 0.7 +
        recentHelpfulnessRate feedback now * 0.3 + 1 / 2⌋ < 101 := by
      apply Int.floor_lt.2
      push_cast
      nlinarith
    omega

/-- C4: for a non-empty feedback set the stored score is
`round(overallRate * 0.7 + recentRate * 0.3)`; the recent rate falls back
to the overall rate when no feedback is recent; the score is an integer in
`[0, 100]`; and ten all-helpful recent records score 100 with high
confidence. -/
theorem unified_score_spec :
    (∀ (place : PlaceDoc) (feedback : List PlaceFeedback) (now : Int),
      feedback ≠ [] →
        (updatePlaceHelpfulness place feedback now).helpfulnessScore =
          some (round (overallHelpfulnessRate feedback * 0.7 +
            recentHelpfulnessRate feedback now * 0.3))) ∧
    (∀ (feedback : List PlaceFeedback) (now : Int),
      feedback.filter (isRecent now) = [] →
        recentHelpfulnessRate feedback now = overallHelpfulnessRate feedback) ∧
    (∀ (feedback : List PlaceFeedback) (now : Int),
      0 ≤ unifiedScore feedback now ∧ unifiedScore feedback now ≤ 100) ∧
    (updatePlaceHelpfulness freshPlace tenGood 0).helpfulnessScore =
      some 100 ∧
    (updatePlaceHelpfulness freshPlace tenGood 0).confidenceLevel =
      some .high := by
  have h1 : (tenGood.filter (fun f => f.isHelpful)).length = 10 := by decide
  have h2 : tenGood.length = 10 := by decide
  have h3 : (tenGood.filter (isRecent 0)).length = 10 := by decide
  have h4 : ((tenGood.filter (isRecent 0)).filter
      (fun f => f.isHelpful)).length = 10 := by decide
  have hov : overallHelpfulnessRate tenGood = 100 := by
    unfold overallHelpfulnessRate
    rw [h1, h2]
    norm_num
  have hrec : recentHelpfulnessRate tenGood 0 = 100 := by
    show (if (tenGood.filter (isRecent 0)).length > 0 then
        (((tenGood.filter (isRecent 0)).filter
          (fun f => f.isHelpful)).length : ℚ) /
          ((tenGood.filter (isRecent 0)).length : ℚ) * 100
      else overallHelpfulnessRate tenGood) = 100
    rw [h3, h4]
    norm_num
  have hscore : unifiedScore tenGood 0 = 100 := by
    unfold unifiedScore
    rw [hov, hrec]
    norm_num [round_eq]
  refine ⟨?_, ?_, unifiedScore_bounds, ?_, by decide⟩
  · intro place feedback now hne
    match feedback with
    | [] => exact absurd rfl hne
    | f :: rest => rfl
  · intro feedback now hrec2
    unfold recentHelpfulnessRate
    rw [hrec2]
    norm_num
  · show some (unifiedScore tenGood 0) = some 100
    rw [hscore]

/-- Witness for `unified_score_spec` at the ten-record fixture. -/
theorem unified_score_spec_witness :
    (updatePlaceHelpfulness freshPlace tenGood 0).helpfulnessScore =
      some (round (overallHelpfulnessRate tenGood * 0.7 +
        recentHelpfulnessRate tenGood 0 * 0.3)) :=
  unified_score_spec.1 freshPlace tenGood 0 (by decide)

/-! ## Claim C6: tag counting and filtering -/

/-- The count stored for key `t` in a tag-count accumulator (0 if absent). -/
def lookupC (acc : List (String × Nat)) (t : String) : Nat :=
  ((acc.find? (fun p => p.1 == t)).map (fun p => p.2)).getD 0

/-- Symmetry of a failed string comparison. -/
theorem beq_false_symm {u t : String} (h : (t == u) = false) :
    (u == t) = false := by
  cases hq : (u == t) with
  | false => rfl
  | true =>
      have he : u = t := eq_of_beq hq
      rw [he] at h
      simp at h

/-- Bumping key `u` in an accumulator that contains it increments its
stored count. -/
theorem lookupC_map_bump_eq (acc : List (String × Nat)) (u : String)
    (hmem : acc.any (fun p => p.1 == u) = true) :
    lookupC (acc.map (fun p => if p.1 == u then (p.1, p.2 + 1) else p)) u =
      lookupC acc u + 1 := by
  induction acc with
  | nil => simp at hmem
  | cons f rest ih =>
      cases hf : (f.1 == u) with
      | true =>
          unfold lookupC
          rw [List.map_cons, if_pos hf]
          simp [List.find?_cons, hf]
      | false =>
          have hrest : rest.any (fun p => p.1 == u) = true := by
            rw [List.any_cons, hf] at hmem
            simpa using hmem
          unfold lookupC
          rw [List.map_cons, if_neg (by simp [hf])]
          simp only [List.find?_cons, hf]
          exact ih hrest

/-- Bumping key `u` leaves the stored count of any other key unchanged. -/
theorem lookupC_map_bump_ne (acc : List (String × Nat)) (u t : String)
    (ht : (t == u) = false) :
    lookupC (acc.map (fun p => if p.1 == u then (p.1, p.2 + 1) else p)) t =
      lookupC acc t := by
  induction acc with
  | nil => rfl
  | cons f rest ih =>
      unfold lookupC
      rw [List.map_cons]
      cases hf : (f.1 == t) with
      | true =>
          have hft : f.1 = t := eq_of_beq hf
          have hfu : (f.1 == u) = false := by rw [hft]; exact ht
          rw [if_neg (by simp [hfu])]
          simp [List.find?_cons, hf]
      | false =>
          by_cases hq : (f.1 == u) = true
          · rw [if_pos hq]
            simp only [List.find?_cons, hq, hf]
            exact ih
          · rw [if_neg hq]
            simp only [List.find?_cons, hf]
            exact ih

/-- One bump changes exactly the count of the bumped key, by one. -/
theorem lookupC_bump (acc : List (String × Nat)) (u t : String) :
    lookupC (bumpTag acc u) t =
      lookupC acc t + (if (t == u) = true then 1 else 0) := by
  unfold bumpTag
  by_cases hany : (acc.any (fun p => p.1 == u)) = true
  · rw [if_pos hany]
    cases ht : (t == u) with
    | true =>
        have htu : t = u := eq_of_beq ht
        subst htu
        rw [if_pos rfl]
        exact lookupC_map_bump_eq acc t hany
    | false =>
        rw [if_neg (by simp)]
        exact lookupC_map_bump_ne acc u t ht
  · rw [if_neg hany]
    have hnone : acc.find? (fun p => p.1 == u) = none := by
      rw [List.find?_eq_none]
      intro p hp hpu
      exact hany (List.any_eq_true.2 ⟨p, hp, hpu⟩)
    cases ht : (t == u) with
    | true =>
        have htu : t = u := eq_of_beq ht
        subst htu
        rw [if_pos rfl]
        unfold lookupC
        rw [List.find?_append, hnone]
        simp
    | false =>
        rw [if_neg (by simp)]
        unfold lookupC
        rw [List.find?_append]
        have hlast : ([((u, 1) : String × Nat)].find? (fun p => p.1 == t))
            = none := by
          rw [List.find?_eq_none]
          intro p hp hpt
          rw [List.mem_singleton] at hp
          subst hp
          exact absurd (eq_of_beq hpt).symm
            (fun he => by rw [he] at ht; simp at ht)
        rw [hlast]
        simp

/-- Folding `bumpTag` over a tag list adds each occurrence to its key. -/
theorem lookupC_foldl (l : List String) (acc : List (String × Nat))
    (t : String) :
    lookupC (l.foldl bumpTag acc) t = lookupC acc t + l.count t := by
  induction l generalizing acc with
  | nil => simp
  | cons u rest ih =>
      rw [List.foldl_cons, ih, lookupC_bump, List.count_cons]
      by_cases htu : t = u
      · subst htu
        simp
        ring
      · have h1 : (t == u) = false := by
          cases hq : (t == u) with
          | false => rfl
          | true => exact absurd (eq_of_beq hq) htu
        have h2 : (u == t) = false := beq_false_symm h1
        rw [h1, h2]
        simp

/-- The keys of `bumpTag acc u`: unchanged when `u` is already present,
extended by `u` otherwise. -/
theorem keys_bump (acc : List (String × Nat)) (u : String) :
    (bumpTag acc u).map Prod.fst =
      if (acc.any (fun p => p.1 == u)) = true then acc.map Prod.fst
      else acc.map Prod.fst ++ [u] := by
  unfold bumpTag
  by_cases hany : (acc.any (fun p => p.1 == u)) = true
  · rw [if_pos hany, if_pos hany]
    rw [List.map_map]
    apply List.map_congr_left
    intro p _
    show ((if (p.1 == u) = true then (p.1, p.2 + 1) else p).1) = p.1
    split
    · rfl
    · rfl
  · rw [if_neg hany, if_neg hany]
    simp

/-- A key is present after the fold iff it was already present or occurs
in the folded tag list. -/
theorem mem_keys_foldl (l : List String) (acc : List (String × Nat))
    (t : String) :
    t ∈ (l.foldl bumpTag acc).map Prod.fst ↔
      t ∈ acc.map Prod.fst ∨ t ∈ l := by
  induction l generalizing acc with
  | nil => simp
  | cons u rest ih =>
      rw [List.foldl_cons, ih, keys_bump]
      by_cases hany : (acc.any (fun p => p.1 == u)) = true
      · rw [if_pos hany]
        have hu : u ∈ acc.map Prod.fst := by
          rcases List.any_eq_true.1 hany with ⟨p, hp, hpu⟩
          exact (eq_of_beq hpu) ▸ List.mem_map_of_mem Prod.fst hp
        simp only [List.mem_cons]
        constructor
        · intro h
          rcases h with h | h
          · exact Or.inl h
          · exact Or.inr (Or.inr h)
        · intro h
          rcases h with h | h | h
          · exact Or.inl h
          · subst h
            exact Or.inl hu
          · exact Or.inr h
      · rw [if_neg hany]
        simp only [List.mem_append, List.mem_singleton, List.mem_cons]
        tauto

/-- The keys accumulated by the fold are duplicate-free. -/
theorem nodup_keys_foldl (l : List String) (acc : List (String × Nat))
    (h : (acc.map Prod.fst).Nodup) :
    ((l.foldl bumpTag acc).map Prod.fst).Nodup := by
  induction l generalizing acc with
  | nil => exact h
  | cons u rest ih =>
      rw [List.foldl_cons]
      apply ih
      rw [keys_bump]
      by_cases hany : (acc.any (fun p => p.1 == u)) = true
      · rw [if_pos hany]
        exact h
      · rw [if_neg hany]
        rw [List.nodup_append]
        refine ⟨h, List.nodup_singleton u, ?_⟩
        intro x hx hxu
        rw [List.mem_singleton] at hxu
        subst hxu
        rcases List.mem_map.1 hx with ⟨p, hp, hpu⟩
        exact hany (List.any_eq_true.2
          ⟨p, hp, by rw [hpu]; exact beq_self_eq_true x⟩)

/-- In an accumulator with duplicate-free keys, `find?` returns exactly the
member carrying the sought key. -/
theorem find?_of_mem_nodup (acc : List (String × Nat)) (p : String × Nat)
    (hp : p ∈ acc) (hnd : (acc.map Prod.fst).Nodup) :
    acc.find? (fun q => q.1 == p.1) = some p := by
  induction acc with
  | nil => cases hp
  | cons f rest ih =>
      rcases List.mem_cons.1 hp with heq | hmem
      · subst heq
        simp [List.find?_cons]
      · have hnd2 : f.1 ∉ rest.map Prod.fst ∧ (rest.map Prod.fst).Nodup := by
          rw [List.map_cons, List.nodup_cons] at hnd
          exact hnd
        have hne : (f.1 == p.1) = false := by
          cases hq : (f.1 == p.1) with
          | false => rfl
          | true =>
              have hfp : f.1 = p.1 := eq_of_beq hq
              have hm2 : p.1 ∈ rest.map Prod.fst :=
                List.mem_map_of_mem Prod.fst hmem
              rw [← hfp] at hm2
              exact absurd hm2 hnd2.1
        simp only [List.find?_cons, hne]
        exact ih hmem hnd2.2

/-- The count recorded by `tagCounts` is `List.count`. -/
theorem tagCounts_lookup (l : List String) (t : String) :
    lookupC (tagCounts l) t = l.count t := by
  have h := lookupC_foldl l [] t
  simpa [tagCounts, lookupC] using h

/-- Every entry of `tagCounts l` carries the exact occurrence count of its
tag. -/
theorem mem_tagCounts (l : List String) (p : String × Nat)
    (hp : p ∈ tagCounts l) : p.2 = l.count p.1 := by
  have hnd : ((tagCounts l).map Prod.fst).Nodup :=
    nodup_keys_foldl l [] (by simp)
  have hf := find?_of_mem_nodup (tagCounts l) p hp hnd
  have h := tagCounts_lookup l p.1
  rw [lookupC, hf] at h
  simpa using h

/-- `tagCounts` has one entry per distinct tag of the list. -/
theorem keys_tagCounts (l : List String) (t : String) :
    t ∈ (tagCounts l).map Prod.fst ↔ t ∈ l := by
  have h := mem_keys_foldl l [] t
  simpa [tagCounts] using h

/-- A tag survives the minimum-support filter exactly when it occurs in the
feedback and its occurrence count reaches `minTagVotes`. -/
theorem mem_supported_iff (feedback : List PlaceFeedback) (t : String) :
    t ∈ (supportedTagEntries feedback).map Prod.fst ↔
      (t ∈ allServiceTags feedback ∧
        minTagVotes feedback.length ≤ (allServiceTags feedback).count t) := by
  unfold supportedTagEntries
  constructor
  · intro h
    rcases List.mem_map.1 h with ⟨p, hpf, hp1⟩
    rcases List.mem_filter.1 hpf with ⟨hpc, hple⟩
    have h2 := mem_tagCounts _ p hpc
    have h3 : p.1 ∈ (tagCounts (allServiceTags feedback)).map Prod.fst :=
      List.mem_map_of_mem Prod.fst hpc
    rw [keys_tagCounts] at h3
    subst hp1
    exact ⟨h3, h2 ▸ of_decide_eq_true hple⟩
  · rintro ⟨htl, hcnt⟩
    have h3 : t ∈ (tagCounts (allServiceTags feedback)).map Prod.fst :=
      (keys_tagCounts _ t).2 htl
    rcases List.mem_map.1 h3 with ⟨p, hpc, hp1⟩
    have h2 := mem_tagCounts _ p hpc
    apply List.mem_map.2
    refine ⟨p, List.mem_filter.2 ⟨hpc, ?_⟩, hp1⟩
    apply decide_eq_true
    rw [h2, hp1]
    exact hcnt

/-- C6: the published tag list keeps at most six tags, is sorted by
descending count, and the support filter keeps exactly the tags whose
occurrence count reaches `minSupport = max(1, floor(totalFeedback * 0.2))`;
with ten records a tag mentioned twice is kept and a tag mentioned once is
dropped. -/
theorem tag_filter_spec :
    (∀ feedback : List PlaceFeedback, (topServiceTags feedback).length ≤ 6) ∧
    (∀ feedback : List PlaceFeedback,
      List.Sorted descendingByCount
        (((supportedTagEntries feedback).insertionSort
          descendingByCount).take 6)) ∧
    (∀ (feedback : List PlaceFeedback) (t : String),
      t ∈ (supportedTagEntries feedback).map Prod.fst ↔
        (t ∈ allServiceTags feedback ∧
          minTagVotes feedback.length ≤ (allServiceTags feedback).count t)) ∧
    minTagVotes 10 = 2 ∧
    "t2" ∈ topServiceTags tenGood ∧ "t1" ∉ topServiceTags tenGood := by
  have hmv : minTagVotes 10 = 2 := by
    unfold minTagVotes
    norm_num
    decide
  have hten : minTagVotes tenGood.length = 2 := hmv
  refine ⟨?_, ?_, mem_supported_iff, hmv, ?_, ?_⟩
  · intro feedback
    unfold topServiceTags
    rw [List.length_map, List.length_take]
    exact min_le_left _ _
  · intro feedback
    exact List.Pairwise.sublist (List.take_sublist 6 _)
      (List.sorted_insertionSort descendingByCount _)
  · unfold topServiceTags supportedTagEntries
    rw [hten]
    decide
  · unfold topServiceTags supportedTagEntries
    rw [hten]
    decide

/-! ## Claim C2: the moved-significantly flag -/

theorem atan2_zero_one : atan2 0 1 = 0 := by
  unfold atan2
  rw [if_pos (by norm_num : (0:ℝ) < 1)]
  norm_num [Real.arctan_zero]

theorem atan2_one_zero : atan2 1 0 = Real.pi / 2 := by
  unfold atan2
  rw [if_neg (lt_irrefl (0:ℝ)), if_neg (lt_irrefl (0:ℝ)),
    if_pos (by norm_num : (0:ℝ) < 1)]

/-- The haversine distance from any point to itself is zero. -/
theorem calculateDistance_self (lat lon : ℝ) :
    calculateDistance lat lon lat lon = 0 := by
  unfold calculateDistance
  simp only [sub_self, zero_mul, zero_div]
  norm_num [Real.sin_zero, Real.sqrt_zero, Real.sqrt_one, atan2_zero_one]

/-- The haversine distance from the origin to its antipode on the equator:
half the Earth circumference. -/
theorem calculateDistance_antipodal :
    calculateDistance 0 0 0 180 = 6371 * Real.pi := by
  unfold calculateDistance
  have h1 : ((180:ℝ) - 0) * Real.pi / 180 = Real.pi := by
    ring
  rw [h1]
  simp only [sub_self, zero_mul, zero_div]
  norm_num [Real.sin_zero, Real.cos_zero, Real.sin_pi_div_two,
    Real.sqrt_one, Real.sqrt_zero, atan2_one_zero]
  ring

theorem half_lt_6371_pi : (0.5:ℝ) < 6371 * Real.pi := by
  nlinarith [Real.pi_gt_three]

/-- The SOS store holding the single fresh alert `sampleAlert`. -/
def alertStore0 : SOSState := ⟨[("a1", sampleAlert)], []⟩

/-- After a successful lookup, `updateSOSLocation` rewrites the alert with
a freshly computed flag and appends one update record. -/
theorem updateSOSLocation_found (s : SOSState) (alertId : String)
    (loc : SOSLocation) (b : Option ℝ) (now : Int) (a : SOSAlert)
    (h : findAlert s alertId = some a) :
    updateSOSLocation s alertId loc b now =
      { alerts := s.alerts.map (fun p =>
          if p.1 == alertId then
            (p.1, { a with
              lastKnownLocation := some loc
              batteryLevel := b
              hasMovedSignificantly := decide
                (calculateDistance a.initialLocation.latitude
                  a.initialLocation.longitude loc.latitude
                  loc.longitude > 0.5) })
          else p)
        updates := s.updates ++
          [{ alertId := alertId
             location := loc
             batteryLevel := b
             timestamp := now }] } := by
  unfold updateSOSLocation
  rw [h]

/-- Writing one value at a key through the map commutes with `find?`. -/
theorem find?_map_set (l : List (String × SOSAlert)) (id : String)
    (v : SOSAlert) :
    (l.map (fun p => if p.1 == id then (p.1, v) else p)).find?
      (fun p => p.1 == id) =
    (l.find? (fun p => p.1 == id)).map (fun p => (p.1, v)) := by
  induction l with
  | nil => rfl
  | cons f rest ih =>
      cases hf : (f.1 == id) with
      | true =>
          rw [List.map_cons, if_pos hf]
          simp [List.find?_cons, hf]
      | false =>
          rw [List.map_cons, if_neg (by simp [hf])]
          simp only [List.find?_cons, hf]
          exact ih

/-- Looking the alert up again after `updateSOSLocation` returns the
rewritten alert. -/
theorem findAlert_updateSOSLocation (s : SOSState) (alertId : String)
    (loc : SOSLocation) (b : Option ℝ) (now : Int) (a : SOSAlert)
    (h : findAlert s alertId = some a) :
    findAlert (updateSOSLocation s alertId loc b now) alertId =
      some { a with
        lastKnownLocation := some loc
        batteryLevel := b
        hasMovedSignificantly := decide
          (calculateDistance a.initialLocation.latitude
            a.initialLocation.longitude loc.latitude
            loc.longitude > 0.5) } := by
  rw [updateSOSLocation_found s alertId loc b now a h]
  unfold findAlert
  dsimp only
  rw [find?_map_set]
  unfold findAlert at h
  rcases Option.map_eq_some'.1 h with ⟨p, hp, hp2⟩
  rw [hp]
  rw [← hp2]
  rfl

/-- C2 counterexample: starting from a fresh alert at the origin, an update
to the antipode sets `hasMovedSignificantly = true`, but a following update
back to the origin resets it to `false` — the flag is not monotonic. -/
theorem moved_flag_not_monotone :
    (findAlert (updateSOSLocation alertStore0 "a1" farLoc none 1)
      "a1").map (fun a => a.hasMovedSignificantly) = some true ∧
    (findAlert (updateSOSLocation
        (updateSOSLocation alertStore0 "a1" farLoc none 1)
        "a1" sampleLoc none 2) "a1").map
      (fun a => a.hasMovedSignificantly) = some false := by
  have hd1 : calculateDistance sampleAlert.initialLocation.latitude
      sampleAlert.initialLocation.longitude farLoc.latitude
      farLoc.longitude = 6371 * Real.pi := calculateDistance_antipodal
  have h1 := findAlert_updateSOSLocation alertStore0 "a1" farLoc none 1
    sampleAlert rfl
  have h2 := findAlert_updateSOSLocation _ "a1" sampleLoc none 2 _ h1
  constructor
  · rw [h1]
    simp only [Option.map_some']
    rw [decide_eq_true]
    rw [hd1]
    exact half_lt_6371_pi
  · rw [h2]
    simp only [Option.map_some']
    have hd2 : calculateDistance sampleAlert.initialLocation.latitude
        sampleAlert.initialLocation.longitude sampleLoc.latitude
        sampleLoc.longitude = 0 := calculateDistance_self 0 0
    rw [decide_eq_false]
    rw [hd2]
    norm_num

/-- C2 amended: on every location update of an existing alert,
`hasMovedSignificantly` is recomputed from scratch as
`distance(initialLocation, newLocation) > 0.5 km`; it is not monotonic —
moving back within 500 m of the initial location resets it to false. -/
theorem movedSignificantly_recomputed (s : SOSState) (alertId : String)
    (loc : SOSLocation) (b : Option ℝ) (now : Int) (a : SOSAlert)
    (h : findAlert s alertId = some a) :
    findAlert (updateSOSLocation s alertId loc b now) alertId =
      some { a with
        lastKnownLocation := some loc
        batteryLevel := b
        hasMovedSignificantly := decide
          (calculateDistance a.initialLocation.latitude
            a.initialLocation.longitude loc.latitude
            loc.longitude > 0.5) } :=
  findAlert_updateSOSLocation s alertId loc b now a h

/-- Witness for `movedSignificantly_recomputed` on the concrete store. -/
theorem movedSignificantly_recomputed_witness :
    findAlert (updateSOSLocation alertStore0 "a1" farLoc none 1) "a1" =
      some { sampleAlert with
        lastKnownLocation := some farLoc
        batteryLevel := none
        hasMovedSignificantly := decide
          (calculateDistance sampleAlert.initialLocation.latitude
            sampleAlert.initialLocation.longitude farLoc.latitude
            farLoc.longitude > 0.5) } :=
  movedSignificantly_recomputed alertStore0 "a1" farLoc none 1 sampleAlert rfl

end Sakhi
